import Mathlib

/-!
Verification development for the solana-memecoin-bot repository.

The repository has two variants of the same scanner design:
  * `src/early_token_scanner.py`  (single stream source)  — namespace `Early`
  * `src/multi_launchpad_scanner.py` (stream + poll sources) — namespace `Multi`

Shallow embedding conventions:
  * Python `float` quantities that the pipeline only ever sets to integral
    values (liquidity, ages and timestamps in seconds) are embedded as `ℤ`;
    every constant appearing in the source for them is an integer, so the
    embedding is exact on the comparisons the program performs.  The
    developer success rate, a genuine fraction, is embedded as `ℚ`.
  * Python `str` is Lean `String`; `s.lower()` is `toLowerStr`
    (the source data is ASCII), `kw in s` is `containsSub kw s`.
  * `datetime.now()` is made an explicit parameter `now : ℤ` (seconds);
    `(datetime.now() - token.timestamp).total_seconds()` becomes
    `now - t.timestamp`.
  * The failure reasons, which the source renders as formatted strings,
    are embedded as the inductive `Reason`, one constructor per distinct
    source message, carrying the interpolated value where the message
    has one.
  * The Telegram `send_message` call is the notifier invocation; the
    orchestrator callback `on_new_token` is embedded as a state-passing
    step function whose `Outcome.dispatched` result marks exactly the
    executions that reach `send_message` with a token alert.
  * The stream adapter's reconnect loop is embedded as a step function
    over connection events (`ConnEvent.failure` = any connect/stream
    error, `ConnEvent.success` = a successful subscribe), returning the
    list of sleep delays the loop performs.
-/

namespace Scanner

/-- Python substring membership helper: `startsWithL n h` is true when
`n` is an initial segment of `h`. -/
def startsWithL : List Char → List Char → Bool
  | [], _ => true
  | _ :: _, [] => false
  | a :: as, b :: bs => a == b && startsWithL as bs

/-- True when `needle` occurs as a contiguous sublist of `haystack`. -/
def infixOfL (needle : List Char) : List Char → Bool
  | [] => startsWithL needle []
  | b :: bs => startsWithL needle (b :: bs) || infixOfL needle bs

/-- Python `needle in haystack` for strings. -/
def containsSub (needle haystack : String) : Bool :=
  infixOfL needle.data haystack.data

/-- Python `s.lower()` (the source data is ASCII). -/
def toLowerStr (s : String) : String :=
  ⟨s.data.map Char.toLower⟩

/-- Developer reputation classification strings used by the source:
`'elite' | 'good' | 'unknown' | 'bad'`. -/
inductive DevRep
  | elite
  | good
  | unknown
  | bad
deriving DecidableEq, Repr

/-- The distinct failure/success messages produced by `meets_criteria`
in both variants, one constructor per source message, carrying the
interpolated value where the source message has one:
`tooOld a` = "Too old ({a}s)", `lowLiquidity l` = "Low liquidity (..)",
`highLiquidity l` = "High liquidity (..)", `noSocials` = "No socials",
`symbolTooLong n` / `symbolTooShort n` = "Symbol too long/short ({n})",
`blacklisted k` = "Blacklisted: {k}", `bannedMatch` = "Banned pattern",
`noThemeMatch` = "No theme match", `tooManyNumbers` = "Too many numbers",
`passed` = the success message of a token passing the whole chain. -/
inductive Reason
  | tooOld (age : ℤ)
  | lowLiquidity (liq : ℤ)
  | highLiquidity (liq : ℤ)
  | noSocials
  | symbolTooLong (n : Nat)
  | symbolTooShort (n : Nat)
  | blacklisted (kw : String)
  | bannedMatch
  | noThemeMatch
  | tooManyNumbers
  | passed
deriving DecidableEq, Repr

/-- True exactly for the two liquidity failure messages. -/
def isLiqReason : Reason → Bool
  | .lowLiquidity _ => true
  | .highLiquidity _ => true
  | _ => false

/-- The two banned regular expressions of both sources'
`criteria['banned_patterns']`: `\d{4,}` and `[x×]\d{2,}`. -/
inductive BannedPat
  | digitsRun4
  | xThenDigits2
deriving DecidableEq, Repr

/-- True when the char list starts with at least `k` decimal digits. -/
def startsWithDigits : Nat → List Char → Bool
  | 0, _ => true
  | _ + 1, [] => false
  | k + 1, c :: cs => c.isDigit && startsWithDigits k cs

/-- `re.search` of `\d{4,}`: some position starts a run of 4 digits. -/
def hasDigitRun4 : List Char → Bool
  | [] => false
  | c :: cs => startsWithDigits 4 (c :: cs) || hasDigitRun4 cs

/-- `re.search` of `[x×]\d{2,}`: an `x`/`×` followed by 2 digits. -/
def hasXDigits2 : List Char → Bool
  | [] => false
  | c :: cs => ((c == 'x' || c == '×') && startsWithDigits 2 cs) || hasXDigits2 cs

/-- Semantics of `re.search(pattern, s)` for the two banned patterns. -/
def BannedPat.search : BannedPat → String → Bool
  | .digitsRun4, s => hasDigitRun4 s.data
  | .xThenDigits2, s => hasXDigits2 s.data

/-- `criteria['winning_themes']`, identical in both source variants. -/
def winningThemes : List (String × List String) :=
  [("dogs", ["dog", "doge", "shiba", "wif", "bonk", "pup", "inu", "puppy"]),
   ("cats", ["cat", "popcat", "kitty", "meow", "neko"]),
   ("memes", ["pepe", "wojak", "chad", "gigachad", "smug", "apu", "bobo"]),
   ("ai", ["ai", "agent", "gpt", "chatgpt", "claude", "bot"]),
   ("political", ["trump", "maga", "biden", "america"]),
   ("food", ["pizza", "taco", "burger", "fries"])]

/-- The theme names treated as hot by `calculate_priority` in both
variants: `theme_name in ['dogs', 'memes', 'ai', 'political']`. -/
def hotThemes : List String := ["dogs", "memes", "ai", "political"]

/-- Theme component of `calculate_priority` (both variants, source lines
380-393 and 599-611): for each configured theme, the inner keyword loop
adds 35 (hot theme) or 25 (other theme) on the first matching keyword
and then breaks out of the keyword loop only — so each theme contributes
at most once, but every matching theme contributes. -/
def themeScore (themes : List (String × List String))
    (nameL symL : String) : Nat :=
  (themes.map (fun p =>
    if p.2.any (fun k => containsSub k nameL || containsSub k symL) then
      (if hotThemes.contains p.1 then 35 else 25)
    else 0)).sum

/-- `sum(c.isdigit() for c in s)` (source data is ASCII). -/
def digitCount (s : String) : Nat :=
  s.data.countP (fun c => c.isDigit)

/-- Python `s.isalpha()`: nonempty and every char alphabetic. -/
def pyIsAlpha (s : String) : Bool :=
  !s.data.isEmpty && s.data.all (fun c => c.isAlpha)

/-- Python `s.replace('$', '').isalnum()`: drop dollar signs, then
nonempty and every char alphanumeric. -/
def pyIsAlnumNoDollar (s : String) : Bool :=
  let t := s.data.filter (fun c => c != '$')
  !t.isEmpty && t.all (fun c => c.isAlphanum)

/-- Python truthiness of an `Optional[str]` field (`None` and the empty
string are falsy). -/
def optTruthy : Option String → Bool
  | none => false
  | some s => s ≠ ""

/-- The rational 1/2, the `0.5` success-rate threshold of
`check_developer`, given by its reduced numerator and denominator. -/
def halfRate : ℚ := ⟨1, 2, by decide, by decide⟩

/-- The rational 1/5, the `0.2` success-rate threshold of
`check_developer`, given by its reduced numerator and denominator. -/
def fifthRate : ℚ := ⟨1, 5, by decide, by decide⟩

/-- A short-circuit chain of checks: the result of the first check that
returns a failure reason, else `(True, passed)`. -/
def runChain {α : Type} : List (α → Option Reason) → α → Bool × Reason
  | [], _ => (true, Reason.passed)
  | f :: fs, t =>
    match f t with
    | some r => (false, r)
    | none => runChain fs t

/-- `seen_tokens.add(a)` on the dedup store, with Python set semantics. -/
def markSeen (a : String) (s : List String) : List String :=
  if a ∈ s then s else a :: s

/-- One run of the periodic cleanup body of `run` (both variants):
`if len(seen_tokens) > ceiling: seen_tokens.clear()`.  The ceiling is
500 in the single-source variant and 1000 in the multi-source one. -/
def cleanupSweep (ceiling : Nat) (seen : List String) : List String :=
  if seen.length > ceiling then [] else seen

/-- Dedup-store ceiling hardcoded in `early_token_scanner.run`. -/
def earlyCleanupCeiling : Nat := 500

/-- Dedup-store ceiling hardcoded in `multi_launchpad_scanner.run`. -/
def multiCleanupCeiling : Nat := 1000

/-- Events seen by the reconnect loop of
`PumpFunWebSocketMonitor.connect_and_subscribe` (both variants):
`failure` is any connect or stream error reaching the outer `except`,
`success` is a completed subscribe (`current_delay = self.reconnect_delay`). -/
inductive ConnEvent
  | failure
  | success
deriving DecidableEq, Repr

/-- The sleep delays performed by `connect_and_subscribe`, given the
base delay (`self.reconnect_delay`), the cap (`self.max_reconnect_delay`),
the current delay and the sequence of connection events: on a failure
the loop sleeps `current_delay` and then doubles it capped at the
ceiling (`current_delay = min(current_delay * 2, max_reconnect_delay)`);
on a successful subscribe it resets `current_delay` to the base and
sleeps nothing. -/
def backoffRun (base cap : Nat) : Nat → List ConnEvent → List Nat
  | _, [] => []
  | d, ConnEvent.failure :: es => d :: backoffRun base cap (min (d * 2) cap) es
  | _, ConnEvent.success :: es => backoffRun base cap base es

end Scanner

namespace Early

open Scanner

/-- `EarlyToken` dataclass of `src/early_token_scanner.py`. -/
@[ext]
structure Token where
  address : String
  name : String
  symbol : String
  source : String
  initial_liquidity : ℤ
  creator : String
  timestamp : ℤ
  bonding_curve : Option String := none
  telegram : Option String := none
  twitter : Option String := none
  website : Option String := none
  image_uri : Option String := none
  market_cap : ℤ := 0
  volume : ℤ := 0
  holder_count : Nat := 0
  is_renounced : Bool := false
  is_frozen : Bool := false
  lp_burned : Bool := false
deriving DecidableEq, Repr

/-- The criteria dictionary of `EliteTokenScanner.__init__`, as a typed
record.  `max_symbol_length` and `min_symbol_length` are read through
`.get(key, default)` with defaults 10 and 2; the record always carries
the value the lookup would return. -/
structure Criteria where
  min_pumpfun_liquidity : ℤ
  max_pumpfun_liquidity : ℤ
  max_token_age_seconds : ℤ
  require_socials : Bool
  max_symbol_length : Nat
  min_symbol_length : Nat
  require_theme_match : Bool
  winning_themes : List (String × List String)
  blacklist_keywords : List String
  banned_patterns : List BannedPat
  min_priority_score : Nat
deriving Repr

/-- The concrete criteria values of `EliteTokenScanner.__init__`. -/
def criteria : Criteria :=
  { min_pumpfun_liquidity := 20
    max_pumpfun_liquidity := 200
    max_token_age_seconds := 600
    require_socials := false
    max_symbol_length := 8
    min_symbol_length := 3
    require_theme_match := true
    winning_themes := winningThemes
    blacklist_keywords :=
      ["test", "scam", "rug", "honeypot",
       "moon", "gem", "safe", "100x", "1000x",
       "lambo", "rocket", "millionaire", "rich",
       "random", "asdf", "qwerty", "zzzz"]
    banned_patterns := [.digitsRun4, .xThenDigits2]
    min_priority_score := 150 }

/-- `EliteTokenScanner.meets_criteria` (source lines 275-336), with
`datetime.now()` passed in as `now`. -/
def meets_criteria (c : Criteria) (now : ℤ) (t : Token) : Bool × Reason :=
  let age := now - t.timestamp
  if age > c.max_token_age_seconds then (false, .tooOld age)
  else if t.initial_liquidity < c.min_pumpfun_liquidity then
    (false, .lowLiquidity t.initial_liquidity)
  else if t.initial_liquidity > c.max_pumpfun_liquidity then
    (false, .highLiquidity t.initial_liquidity)
  else if c.require_socials && !optTruthy t.twitter && !optTruthy t.telegram then
    (false, .noSocials)
  else if t.symbol.length > c.max_symbol_length then
    (false, .symbolTooLong t.symbol.length)
  else if t.symbol.length < c.min_symbol_length then
    (false, .symbolTooShort t.symbol.length)
  else
    match c.blacklist_keywords.find? (fun k =>
        containsSub k (toLowerStr t.name) || containsSub k (toLowerStr t.symbol)) with
    | some k => (false, .blacklisted k)
    | none =>
      if c.banned_patterns.any (fun p =>
          p.search (toLowerStr t.name) || p.search (toLowerStr t.symbol)) then
        (false, .bannedMatch)
      else if c.require_theme_match &&
          !(c.winning_themes.any (fun th => th.2.any (fun k =>
              containsSub k (toLowerStr t.name) || containsSub k (toLowerStr t.symbol)))) then
        (false, .noThemeMatch)
      else if digitCount t.symbol > 1 then
        (false, .tooManyNumbers)
      else (true, .passed)

/-- `meets_criteria` as an explicit ordered list of checks, one entry
per `if`/loop of the source, in source order. -/
def checks (c : Criteria) (now : ℤ) : List (Token → Option Reason) :=
  [fun t => if now - t.timestamp > c.max_token_age_seconds then
      some (.tooOld (now - t.timestamp)) else none,
   fun t => if t.initial_liquidity < c.min_pumpfun_liquidity then
      some (.lowLiquidity t.initial_liquidity) else none,
   fun t => if t.initial_liquidity > c.max_pumpfun_liquidity then
      some (.highLiquidity t.initial_liquidity) else none,
   fun t => if c.require_socials && !optTruthy t.twitter && !optTruthy t.telegram then
      some .noSocials else none,
   fun t => if t.symbol.length > c.max_symbol_length then
      some (.symbolTooLong t.symbol.length) else none,
   fun t => if t.symbol.length < c.min_symbol_length then
      some (.symbolTooShort t.symbol.length) else none,
   fun t => (c.blacklist_keywords.find? (fun k =>
      containsSub k (toLowerStr t.name) || containsSub k (toLowerStr t.symbol))).map
      Reason.blacklisted,
   fun t => if c.banned_patterns.any (fun p =>
      p.search (toLowerStr t.name) || p.search (toLowerStr t.symbol)) then
      some .bannedMatch else none,
   fun t => if c.require_theme_match &&
      !(c.winning_themes.any (fun th => th.2.any (fun k =>
          containsSub k (toLowerStr t.name) || containsSub k (toLowerStr t.symbol)))) then
      some .noThemeMatch else none,
   fun t => if digitCount t.symbol > 1 then some .tooManyNumbers else none]

/-- `EliteTokenScanner.calculate_priority` (source lines 338-401), with
`datetime.now()` passed in as `now`. -/
def calculate_priority (c : Criteria) (now : ℤ) (t : Token) : Nat :=
  let age := now - t.timestamp
  let timingScore : Nat :=
    if 120 ≤ age ∧ age ≤ 300 then 50
    else if 60 ≤ age ∧ age ≤ 600 then 45
    else if age < 120 then 35
    else 20
  let liqScore : Nat :=
    if 30 ≤ t.initial_liquidity ∧ t.initial_liquidity ≤ 100 then 40
    else if 20 ≤ t.initial_liquidity ∧ t.initial_liquidity ≤ 150 then 35
    else if 15 ≤ t.initial_liquidity then 25
    else 10
  let socialScore : Nat :=
    (if optTruthy t.twitter then 15 else 0) +
    (if optTruthy t.telegram then 15 else 0)
  let symScore : Nat :=
    if 3 ≤ t.symbol.length ∧ t.symbol.length ≤ 5 then 20
    else if t.symbol.length ≤ 7 then 15
    else 5
  let thScore : Nat :=
    themeScore c.winning_themes (toLowerStr t.name) (toLowerStr t.symbol)
  let cleanScore : Nat :=
    if pyIsAlpha t.symbol then 25
    else if pyIsAlnumNoDollar t.symbol then 15
    else 0
  min (timingScore + liqScore + socialScore + symScore + thScore + cleanScore) 200

/-- The possible exits of `EliteTokenScanner.on_new_token`, in source
order: the dedup skip, the filter skip, the low-priority skip, and the
alert dispatch (which is the one path invoking `send_message`). -/
inductive Outcome
  | skippedSeen
  | failedCriteria (r : Reason)
  | lowPriority (p : Nat)
  | dispatched (p : Nat)
deriving DecidableEq, Repr

/-- True exactly on the dispatching outcome. -/
def Outcome.sendsAlert : Outcome → Bool
  | .dispatched _ => true
  | _ => false

/-- Result of one `on_new_token` call: which exit was taken and the
dedup store afterwards. -/
structure StepOut where
  outcome : Outcome
  seen : List String
deriving DecidableEq, Repr

/-- `EliteTokenScanner.on_new_token` (source lines 244-273): skip if the
address is already in `seen_tokens`; skip if `meets_criteria` fails;
skip if the priority is below the threshold; otherwise send the alert
and add the address to `seen_tokens`. -/
def on_new_token (c : Criteria) (now : ℤ) (seen : List String) (t : Token) :
    StepOut :=
  if t.address ∈ seen then ⟨.skippedSeen, seen⟩
  else
    match meets_criteria c now t with
    | (false, r) => ⟨.failedCriteria r, seen⟩
    | (true, _) =>
      if calculate_priority c now t < c.min_priority_score then
        ⟨.lowPriority (calculate_priority c now t), seen⟩
      else ⟨.dispatched (calculate_priority c now t), t.address :: seen⟩

/-- Repeated deliveries to the callback (no cleanup sweep in between):
fold `on_new_token` over a list of (observation time, event) pairs,
returning the final dedup store and the addresses for which an alert
was sent, in order. -/
def runEvents (c : Criteria) :
    List String → List (ℤ × Token) → List String × List String
  | seen, [] => (seen, [])
  | seen, (now, t) :: es =>
    let o := on_new_token c now seen t
    let rest := runEvents c o.seen es
    match o.outcome with
    | .dispatched _ => (rest.1, t.address :: rest.2)
    | _ => (rest.1, rest.2)

end Early

namespace Multi

open Scanner

/-- `EarlyToken` dataclass of `src/multi_launchpad_scanner.py` (the
multi-source variant adds `pool_id` and `creator_reputation`). -/
@[ext]
structure Token where
  address : String
  name : String
  symbol : String
  source : String
  initial_liquidity : ℤ
  creator : String
  timestamp : ℤ
  bonding_curve : Option String := none
  telegram : Option String := none
  twitter : Option String := none
  website : Option String := none
  image_uri : Option String := none
  market_cap : ℤ := 0
  volume : ℤ := 0
  holder_count : Nat := 0
  pool_id : Option String := none
  creator_reputation : Option DevRep := none
deriving DecidableEq, Repr

/-- One entry of `DeveloperReputationTracker.dev_history`.  The source
stores `successes`, `total` and the derived `success_rate`;
`check_developer` reads `success_rate` through `.get('success_rate', 0)`. -/
structure DevHistory where
  successes : Nat := 0
  total : Nat := 0
  success_rate : ℚ := 0
deriving DecidableEq, Repr

/-- `DeveloperReputationTracker` state: the elite allow-set, the
blacklisted deny-set (both initially empty in the source), and the
per-wallet history map. -/
structure DeveloperReputationTracker where
  elite_devs : List String := []
  blacklisted_devs : List String := []
  dev_history : List (String × DevHistory) := []
deriving DecidableEq, Repr

/-- `creator_wallet in self.dev_history` / `self.dev_history[wallet]`. -/
def lookupHistory (d : DeveloperReputationTracker) (w : String) :
    Option DevHistory :=
  (d.dev_history.find? (fun p => p.1 == w)).map Prod.snd

/-- `DeveloperReputationTracker.check_developer` (source lines 265-283):
elite set first, then blacklist, then the recorded success rate
(`> 0.5` is good, `< 0.2` is bad), else unknown. -/
def check_developer (d : DeveloperReputationTracker) (w : String) : DevRep :=
  if w ∈ d.elite_devs then .elite
  else if w ∈ d.blacklisted_devs then .bad
  else
    match lookupHistory d w with
    | some h =>
      if h.success_rate > halfRate then .good
      else if h.success_rate < fifthRate then .bad
      else .unknown
    | none => .unknown

/-- `DeveloperReputationTracker.update_dev_history`: create the entry on
first sight, bump the counters, recompute `success_rate` as
`successes / total`. -/
def update_dev_history (d : DeveloperReputationTracker) (w : String)
    (success : Bool) : DeveloperReputationTracker :=
  let h := (lookupHistory d w).getD {}
  let suc := h.successes + (if success then 1 else 0)
  let tot := h.total + 1
  let h2 : DevHistory := ⟨suc, tot, (suc : ℚ) / (tot : ℚ)⟩
  { d with dev_history :=
      (w, h2) :: d.dev_history.filter (fun p => p.1 != w) }

/-- The criteria dictionary of `MultiLaunchpadScanner.__init__`, as a
typed record. -/
structure Criteria where
  min_liquidity : ℤ
  max_liquidity : ℤ
  max_token_age_seconds : ℤ
  allowed_sources : List String
  require_socials : Bool
  max_symbol_length : Nat
  min_symbol_length : Nat
  require_theme_match : Bool
  winning_themes : List (String × List String)
  blacklist_keywords : List String
  banned_patterns : List BannedPat
  min_priority_score : Nat
  block_bad_devs : Bool
  boost_good_devs : Bool
  elite_dev_bonus : Nat
  good_dev_bonus : Nat
deriving Repr

/-- The concrete criteria values of `MultiLaunchpadScanner.__init__`. -/
def criteria : Criteria :=
  { min_liquidity := 20
    max_liquidity := 200
    max_token_age_seconds := 600
    allowed_sources := ["pumpfun", "raydium", "orca", "jupiter", "birdeye"]
    require_socials := false
    max_symbol_length := 8
    min_symbol_length := 3
    require_theme_match := true
    winning_themes := winningThemes
    blacklist_keywords :=
      ["test", "scam", "rug", "honeypot",
       "moon", "gem", "safe", "100x", "1000x",
       "lambo", "rocket", "millionaire", "rich",
       "random", "asdf", "qwerty"]
    banned_patterns := [.digitsRun4, .xThenDigits2]
    min_priority_score := 150
    block_bad_devs := true
    boost_good_devs := true
    elite_dev_bonus := 50
    good_dev_bonus := 25 }

/-- The liquidity value both `meets_criteria` and `calculate_priority`
compare against thresholds: pump.fun liquidity is first multiplied by
100 (the source's rough SOL-to-USD conversion), all other sources are
taken as-is. -/
def adjLiquidity (t : Token) : ℤ :=
  if t.source = "pumpfun" then t.initial_liquidity * 100
  else t.initial_liquidity

/-- `MultiLaunchpadScanner.meets_criteria` (source lines 497-557), with
`datetime.now()` passed in as `now`.  Unlike the single-source variant
there is no socials check, and the upper liquidity comparison is against
`max_liquidity * 1000` (source comment: "Max in thousands"). -/
def meets_criteria (c : Criteria) (now : ℤ) (t : Token) : Bool × Reason :=
  let age := now - t.timestamp
  if age > c.max_token_age_seconds then (false, .tooOld age)
  else if adjLiquidity t < c.min_liquidity then
    (false, .lowLiquidity (adjLiquidity t))
  else if adjLiquidity t > c.max_liquidity * 1000 then
    (false, .highLiquidity (adjLiquidity t))
  else if t.symbol.length > c.max_symbol_length then
    (false, .symbolTooLong t.symbol.length)
  else if t.symbol.length < c.min_symbol_length then
    (false, .symbolTooShort t.symbol.length)
  else
    match c.blacklist_keywords.find? (fun k =>
        containsSub k (toLowerStr t.name) || containsSub k (toLowerStr t.symbol)) with
    | some k => (false, .blacklisted k)
    | none =>
      if c.banned_patterns.any (fun p =>
          p.search (toLowerStr t.name) || p.search (toLowerStr t.symbol)) then
        (false, .bannedMatch)
      else if c.require_theme_match &&
          !(c.winning_themes.any (fun th => th.2.any (fun k =>
              containsSub k (toLowerStr t.name) || containsSub k (toLowerStr t.symbol)))) then
        (false, .noThemeMatch)
      else if digitCount t.symbol > 1 then
        (false, .tooManyNumbers)
      else (true, .passed)

/-- `meets_criteria` as an explicit ordered list of checks, one entry
per `if`/loop of the source, in source order. -/
def checks (c : Criteria) (now : ℤ) : List (Token → Option Reason) :=
  [fun t => if now - t.timestamp > c.max_token_age_seconds then
      some (.tooOld (now - t.timestamp)) else none,
   fun t => if adjLiquidity t < c.min_liquidity then
      some (.lowLiquidity (adjLiquidity t)) else none,
   fun t => if adjLiquidity t > c.max_liquidity * 1000 then
      some (.highLiquidity (adjLiquidity t)) else none,
   fun t => if t.symbol.length > c.max_symbol_length then
      some (.symbolTooLong t.symbol.length) else none,
   fun t => if t.symbol.length < c.min_symbol_length then
      some (.symbolTooShort t.symbol.length) else none,
   fun t => (c.blacklist_keywords.find? (fun k =>
      containsSub k (toLowerStr t.name) || containsSub k (toLowerStr t.symbol))).map
      Reason.blacklisted,
   fun t => if c.banned_patterns.any (fun p =>
      p.search (toLowerStr t.name) || p.search (toLowerStr t.symbol)) then
      some .bannedMatch else none,
   fun t => if c.require_theme_match &&
      !(c.winning_themes.any (fun th => th.2.any (fun k =>
          containsSub k (toLowerStr t.name) || containsSub k (toLowerStr t.symbol)))) then
      some .noThemeMatch else none,
   fun t => if digitCount t.symbol > 1 then some .tooManyNumbers else none]

/-- Developer reputation component of `calculate_priority` (source lines
617-621). -/
def devBonus (c : Criteria) : Option DevRep → Nat
  | some .elite => c.elite_dev_bonus
  | some .good => c.good_dev_bonus
  | _ => 0

/-- `MultiLaunchpadScanner.calculate_priority` (source lines 559-623),
with `datetime.now()` passed in as `now`. -/
def calculate_priority (c : Criteria) (now : ℤ) (t : Token) : Nat :=
  let age := now - t.timestamp
  let timingScore : Nat :=
    if 120 ≤ age ∧ age ≤ 300 then 50
    else if 60 ≤ age ∧ age ≤ 600 then 45
    else if age < 120 then 35
    else 20
  let liqScore : Nat :=
    if 3000 ≤ adjLiquidity t ∧ adjLiquidity t ≤ 10000 then 40
    else if 2000 ≤ adjLiquidity t ∧ adjLiquidity t ≤ 15000 then 35
    else if 1500 ≤ adjLiquidity t then 25
    else 0
  let socialScore : Nat :=
    (if optTruthy t.twitter then 15 else 0) +
    (if optTruthy t.telegram then 15 else 0)
  let symScore : Nat :=
    if 3 ≤ t.symbol.length ∧ t.symbol.length ≤ 5 then 20
    else if t.symbol.length ≤ 7 then 15
    else 0
  let thScore : Nat :=
    themeScore c.winning_themes (toLowerStr t.name) (toLowerStr t.symbol)
  let cleanScore : Nat := if pyIsAlpha t.symbol then 25 else 0
  min (timingScore + liqScore + socialScore + symScore + thScore + cleanScore +
       devBonus c t.creator_reputation) 250

/-- The possible exits of `MultiLaunchpadScanner.on_new_token`, in
source order. -/
inductive Outcome
  | skippedSeen
  | blockedBadDev
  | skippedSource
  | failedCriteria (r : Reason)
  | lowPriority (p : Nat)
  | dispatched (p : Nat)
deriving DecidableEq, Repr

/-- True exactly on the dispatching outcome. -/
def Outcome.sendsAlert : Outcome → Bool
  | .dispatched _ => true
  | _ => false

/-- Result of one `on_new_token` call: the token after the reputation
annotation (the source mutates `token.creator_reputation` in place),
which exit was taken, and the dedup store afterwards. -/
structure StepOut where
  token : Token
  outcome : Outcome
  seen : List String
deriving DecidableEq, Repr

/-- `MultiLaunchpadScanner.on_new_token` (source lines 444-495): skip if
the address is already seen; if the creator wallet is nonempty, annotate
the token with `check_developer` and (when `block_bad_devs`) reject bad
developers; reject sources outside a nonempty `allowed_sources`; skip if
`meets_criteria` fails; skip if the priority is below the threshold;
otherwise send the alert and add the address to `seen_tokens`.
`annotate` is the in-place mutation
`token.creator_reputation = self.dev_tracker.check_developer(token.creator)`
performed when the creator wallet is nonempty. -/
def annotate (d : DeveloperReputationTracker) (t : Token) : Token :=
  if t.creator ≠ "" then
    { t with creator_reputation := some (check_developer d t.creator) }
  else t

/-- `MultiLaunchpadScanner.on_new_token` (source lines 444-495); see
`annotate` above for the reputation annotation step. -/
def on_new_token (c : Criteria) (d : DeveloperReputationTracker) (now : ℤ)
    (seen : List String) (t : Token) : StepOut :=
  if t.address ∈ seen then ⟨t, .skippedSeen, seen⟩
  else if t.creator ≠ "" ∧ c.block_bad_devs ∧
      (annotate d t).creator_reputation = some .bad then
    ⟨annotate d t, .blockedBadDev, seen⟩
  else if c.allowed_sources ≠ [] ∧ t.source ∉ c.allowed_sources then
    ⟨annotate d t, .skippedSource, seen⟩
  else
    match meets_criteria c now (annotate d t) with
    | (false, r) => ⟨annotate d t, .failedCriteria r, seen⟩
    | (true, _) =>
      if calculate_priority c now (annotate d t) < c.min_priority_score then
        ⟨annotate d t, .lowPriority (calculate_priority c now (annotate d t)), seen⟩
      else
        ⟨annotate d t, .dispatched (calculate_priority c now (annotate d t)),
         t.address :: seen⟩

/-- Repeated deliveries to the callback (no cleanup sweep in between):
fold `on_new_token` over a list of (observation time, event) pairs,
returning the final dedup store and the addresses for which an alert
was sent, in order. -/
def runEvents (c : Criteria) (d : DeveloperReputationTracker) :
    List String → List (ℤ × Token) → List String × List String
  | seen, [] => (seen, [])
  | seen, (now, t) :: es =>
    let o := on_new_token c d now seen t
    let rest := runEvents c d o.seen es
    match o.outcome with
    | .dispatched _ => (rest.1, t.address :: rest.2)
    | _ => (rest.1, rest.2)

end Multi

/-! Concrete sample inputs used by the closed theorems below. -/

/-- Sample event matching two distinct themes ("dog" ⊑ name for dogs,
"cat" ⊑ symbol for cats). -/
def tokDogeCat : Early.Token :=
  { address := "StackTok", name := "Doge", symbol := "CAT",
    source := "pumpfun_websocket", initial_liquidity := 50,
    creator := "c", timestamp := 0 }

/-- Sample event passing the full single-source filter and priority
threshold at observation time 150. -/
def tokA1 : Early.Token :=
  { address := "a1", name := "doge", symbol := "DOGE",
    source := "pumpfun_websocket", initial_liquidity := 50,
    creator := "c", timestamp := 0, twitter := some "https://x.com/doge" }

/-- Sample event for the determinism counterexample: passes the filter
when observed at time 50, fails the age check at time 700. -/
def c7Tok : Early.Token :=
  { address := "PureTok", name := "Dogecoin", symbol := "DOGE",
    source := "pumpfun_websocket", initial_liquidity := 50,
    creator := "c", timestamp := 0 }

/-- Sample multi-source event with liquidity 500, strictly above
`criteria.max_liquidity` = 200, that nevertheless passes the filter. -/
def c5Tok : Multi.Token :=
  { address := "LiqTok", name := "doge", symbol := "DOGE",
    source := "birdeye", initial_liquidity := 500, creator := "",
    timestamp := 0 }

/-- Tracker with the same wallet in both the elite set and the
blacklisted set. -/
def bothTracker : Multi.DeveloperReputationTracker := ⟨["w"], ["w"], []⟩

/-- Tracker with a recorded history for wallet "w": 3 successes out of
4 launches, success rate 3/4. -/
def histTracker : Multi.DeveloperReputationTracker :=
  ⟨[], [], [("w", ⟨3, 4, ⟨3, 4, by decide, by decide⟩⟩)]⟩

/-- Tracker whose blacklist contains the empty-string wallet. -/
def c10Tracker : Multi.DeveloperReputationTracker := ⟨[], [""], []⟩

/-- Sample multi-source event whose creator identity is empty. -/
def c10Tok : Multi.Token :=
  { address := "NoCreator", name := "doge", symbol := "DOGE",
    source := "birdeye", initial_liquidity := 5000, creator := "",
    timestamp := 0 }

/-- The hypothetical criteria of the theme-gating scenario: theme match
required with the single theme set `{dogs: ["doge", "bonk"]}`, an empty
blacklist and pattern list, permissive liquidity and age bounds, and the
symbol-length defaults the source's `.get` lookups supply (10 and 2). -/
def themeCritE : Early.Criteria :=
  { min_pumpfun_liquidity := 0
    max_pumpfun_liquidity := 1000000
    max_token_age_seconds := 600
    require_socials := false
    max_symbol_length := 10
    min_symbol_length := 2
    require_theme_match := true
    winning_themes := [("dogs", ["doge", "bonk"])]
    blacklist_keywords := []
    banned_patterns := []
    min_priority_score := 150 }

/-- The same hypothetical theme-gating criteria for the multi-source
variant. -/
def themeCritM : Multi.Criteria :=
  { min_liquidity := 0
    max_liquidity := 1000000
    max_token_age_seconds := 600
    allowed_sources := []
    require_socials := false
    max_symbol_length := 10
    min_symbol_length := 2
    require_theme_match := true
    winning_themes := [("dogs", ["doge", "bonk"])]
    blacklist_keywords := []
    banned_patterns := []
    min_priority_score := 150
    block_bad_devs := true
    boost_good_devs := true
    elite_dev_bonus := 50
    good_dev_bonus := 25 }

/-- The "RandomCoin"/"RC" event of the theme-gating scenario. -/
def randomTokE : Early.Token :=
  { address := "RandE", name := "RandomCoin", symbol := "RC",
    source := "pumpfun_websocket", initial_liquidity := 10,
    creator := "", timestamp := 0 }

/-- The "Dogecoin2"/"DOGE" event of the theme-gating scenario. -/
def dogeTokE : Early.Token :=
  { address := "DogeE", name := "Dogecoin2", symbol := "DOGE",
    source := "pumpfun_websocket", initial_liquidity := 10,
    creator := "", timestamp := 0 }

/-- The "RandomCoin"/"RC" event for the multi-source variant. -/
def randomTokM : Multi.Token :=
  { address := "RandM", name := "RandomCoin", symbol := "RC",
    source := "birdeye", initial_liquidity := 10,
    creator := "", timestamp := 0 }

/-- The "Dogecoin2"/"DOGE" event for the multi-source variant. -/
def dogeTokM : Multi.Token :=
  { address := "DogeM", name := "Dogecoin2", symbol := "DOGE",
    source := "birdeye", initial_liquidity := 10,
    creator := "", timestamp := 0 }

/-- Four distinct addresses marked seen in an empty dedup store. -/
def fourSeen : List String :=
  Scanner.markSeen "a4" (Scanner.markSeen "a3"
    (Scanner.markSeen "a2" (Scanner.markSeen "a1" [])))

/-! Helper lemmas. -/

theorem Early.step_skippedSeenE (c : Early.Criteria) (now : ℤ)
    (seen : List String) (t : Early.Token) (h : t.address ∈ seen) :
    Early.on_new_token c now seen t = ⟨.skippedSeen, seen⟩ := by
  simp [Early.on_new_token, h]

theorem Early.step_seen_specE (c : Early.Criteria) (now : ℤ)
    (seen : List String) (t : Early.Token) :
    (Early.on_new_token c now seen t).seen =
      (if (Early.on_new_token c now seen t).outcome.sendsAlert
       then t.address :: seen else seen) := by
  unfold Early.on_new_token
  split
  · rfl
  · split
    · rfl
    · split
      · rfl
      · rfl

theorem Multi.step_skippedSeenM (c : Multi.Criteria)
    (d : Multi.DeveloperReputationTracker) (now : ℤ)
    (seen : List String) (t : Multi.Token) (h : t.address ∈ seen) :
    Multi.on_new_token c d now seen t = ⟨t, .skippedSeen, seen⟩ := by
  simp [Multi.on_new_token, h]

theorem Multi.step_seen_specM (c : Multi.Criteria)
    (d : Multi.DeveloperReputationTracker) (now : ℤ)
    (seen : List String) (t : Multi.Token) :
    (Multi.on_new_token c d now seen t).seen =
      (if (Multi.on_new_token c d now seen t).outcome.sendsAlert
       then t.address :: seen else seen) := by
  unfold Multi.on_new_token
  split
  · rfl
  · split
    · rfl
    · split
      · rfl
      · split
        · rfl
        · split
          · rfl
          · rfl

theorem Early.step_alert_not_memE (c : Early.Criteria) (now : ℤ)
    (seen : List String) (t : Early.Token)
    (h : (Early.on_new_token c now seen t).outcome.sendsAlert = true) :
    t.address ∉ seen := by
  intro hmem
  rw [Early.step_skippedSeenE c now seen t hmem] at h
  simp [Early.Outcome.sendsAlert] at h

theorem Early.step_seen_memE (c : Early.Criteria) (now : ℤ)
    (seen : List String) (t : Early.Token) (a : String) (ha : a ∈ seen) :
    a ∈ (Early.on_new_token c now seen t).seen := by
  rw [Early.step_seen_specE]
  split
  · exact List.mem_cons_of_mem _ ha
  · exact ha

theorem Multi.step_alert_not_memM (c : Multi.Criteria)
    (d : Multi.DeveloperReputationTracker) (now : ℤ)
    (seen : List String) (t : Multi.Token)
    (h : (Multi.on_new_token c d now seen t).outcome.sendsAlert = true) :
    t.address ∉ seen := by
  intro hmem
  rw [Multi.step_skippedSeenM c d now seen t hmem] at h
  simp [Multi.Outcome.sendsAlert] at h

theorem Multi.step_seen_memM (c : Multi.Criteria)
    (d : Multi.DeveloperReputationTracker) (now : ℤ)
    (seen : List String) (t : Multi.Token) (a : String) (ha : a ∈ seen) :
    a ∈ (Multi.on_new_token c d now seen t).seen := by
  rw [Multi.step_seen_specM]
  split
  · exact List.mem_cons_of_mem _ ha
  · exact ha

theorem Early.runEvents_count_zeroE (c : Early.Criteria) :
    ∀ (es : List (ℤ × Early.Token)) (seen : List String) (a : String),
      a ∈ seen → List.count a (Early.runEvents c seen es).2 = 0 := by
  intro es
  induction es with
  | nil => intro seen a ha; simp [Early.runEvents]
  | cons e es ih =>
    rcases e with ⟨now, t⟩
    intro seen a ha
    simp only [Early.runEvents]
    cases ho : (Early.on_new_token c now seen t).outcome with
    | dispatched p =>
      have hta : t.address ≠ a := by
        intro heq
        exact Early.step_alert_not_memE c now seen t
          (by simp [ho, Early.Outcome.sendsAlert]) (heq ▸ ha)
      simp only [ho]
      rw [List.count_cons]
      have h0 := ih (Early.on_new_token c now seen t).seen a
        (Early.step_seen_memE c now seen t a ha)
      simp [h0, hta, Ne.symm hta]
    | skippedSeen =>
      simp only [ho]
      exact ih _ a (Early.step_seen_memE c now seen t a ha)
    | failedCriteria r =>
      simp only [ho]
      exact ih _ a (Early.step_seen_memE c now seen t a ha)
    | lowPriority p =>
      simp only [ho]
      exact ih _ a (Early.step_seen_memE c now seen t a ha)

theorem Early.runEvents_count_le_oneE (c : Early.Criteria) :
    ∀ (es : List (ℤ × Early.Token)) (seen : List String) (a : String),
      List.count a (Early.runEvents c seen es).2 ≤ 1 := by
  intro es
  induction es with
  | nil => intro seen a; simp [Early.runEvents]
  | cons e es ih =>
    rcases e with ⟨now, t⟩
    intro seen a
    simp only [Early.runEvents]
    cases ho : (Early.on_new_token c now seen t).outcome with
    | dispatched p =>
      by_cases hta : a = t.address
      · have hmem : a ∈ (Early.on_new_token c now seen t).seen := by
          rw [Early.step_seen_specE]
          simp [ho, Early.Outcome.sendsAlert, hta]
        have h0 := Early.runEvents_count_zeroE c es _ a hmem
        subst hta
        simp only [ho]
        rw [List.count_cons]
        simp [h0]
      · simp only [ho]
        have hne : ¬ (t.address == a) = true := by
          simp only [beq_iff_eq]
          exact fun h => hta h.symm
        rw [List.count_cons, if_neg hne]
        simpa using ih _ a
    | skippedSeen => simp only [ho]; exact ih _ a
    | failedCriteria r => simp only [ho]; exact ih _ a
    | lowPriority p => simp only [ho]; exact ih _ a

theorem Multi.runEvents_count_zeroM (c : Multi.Criteria)
    (d : Multi.DeveloperReputationTracker) :
    ∀ (es : List (ℤ × Multi.Token)) (seen : List String) (a : String),
      a ∈ seen → List.count a (Multi.runEvents c d seen es).2 = 0 := by
  intro es
  induction es with
  | nil => intro seen a ha; simp [Multi.runEvents]
  | cons e es ih =>
    rcases e with ⟨now, t⟩
    intro seen a ha
    simp only [Multi.runEvents]
    cases ho : (Multi.on_new_token c d now seen t).outcome with
    | dispatched p =>
      have hta : t.address ≠ a := by
        intro heq
        exact Multi.step_alert_not_memM c d now seen t
          (by simp [ho, Multi.Outcome.sendsAlert]) (heq ▸ ha)
      simp only [ho]
      rw [List.count_cons]
      have h0 := ih (Multi.on_new_token c d now seen t).seen a
        (Multi.step_seen_memM c d now seen t a ha)
      simp [h0, hta, Ne.symm hta]
    | skippedSeen =>
      simp only [ho]
      exact ih _ a (Multi.step_seen_memM c d now seen t a ha)
    | blockedBadDev =>
      simp only [ho]
      exact ih _ a (Multi.step_seen_memM c d now seen t a ha)
    | skippedSource =>
      simp only [ho]
      exact ih _ a (Multi.step_seen_memM c d now seen t a ha)
    | failedCriteria r =>
      simp only [ho]
      exact ih _ a (Multi.step_seen_memM c d now seen t a ha)
    | lowPriority p =>
      simp only [ho]
      exact ih _ a (Multi.step_seen_memM c d now seen t a ha)

theorem Multi.runEvents_count_le_oneM (c : Multi.Criteria)
    (d : Multi.DeveloperReputationTracker) :
    ∀ (es : List (ℤ × Multi.Token)) (seen : List String) (a : String),
      List.count a (Multi.runEvents c d seen es).2 ≤ 1 := by
  intro es
  induction es with
  | nil => intro seen a; simp [Multi.runEvents]
  | cons e es ih =>
    rcases e with ⟨now, t⟩
    intro seen a
    simp only [Multi.runEvents]
    cases ho : (Multi.on_new_token c d now seen t).outcome with
    | dispatched p =>
      by_cases hta : a = t.address
      · have hmem : a ∈ (Multi.on_new_token c d now seen t).seen := by
          rw [Multi.step_seen_specM]
          simp [ho, Multi.Outcome.sendsAlert, hta]
        have h0 := Multi.runEvents_count_zeroM c d es _ a hmem
        subst hta
        simp only [ho]
        rw [List.count_cons]
        simp [h0]
      · simp only [ho]
        have hne : ¬ (t.address == a) = true := by
          simp only [beq_iff_eq]
          exact fun h => hta h.symm
        rw [List.count_cons, if_neg hne]
        simpa using ih _ a
    | skippedSeen => simp only [ho]; exact ih _ a
    | blockedBadDev => simp only [ho]; exact ih _ a
    | skippedSource => simp only [ho]; exact ih _ a
    | failedCriteria r => simp only [ho]; exact ih _ a
    | lowPriority p => simp only [ho]; exact ih _ a

theorem Scanner.backoff_capped : ∀ n : Nat,
    Scanner.backoffRun 5 60 60 (List.replicate n .failure) =
      List.replicate n 60 := by
  intro n
  induction n with
  | zero => rfl
  | succ k ih =>
    have hmin : min (60 * 2) 60 = 60 := rfl
    simp only [List.replicate_succ, Scanner.backoffRun, hmin, ih]

theorem Scanner.runChain_cons_some {α : Type} (f : α → Option Scanner.Reason)
    (fs : List (α → Option Scanner.Reason)) (t : α) (r : Scanner.Reason)
    (h : f t = some r) : Scanner.runChain (f :: fs) t = (false, r) := by
  simp [Scanner.runChain, h]

theorem Scanner.runChain_cons_none {α : Type} (f : α → Option Scanner.Reason)
    (fs : List (α → Option Scanner.Reason)) (t : α)
    (h : f t = none) : Scanner.runChain (f :: fs) t = Scanner.runChain fs t := by
  simp [Scanner.runChain, h]

theorem Early.meets_eq_chainE (c : Early.Criteria) (now : ℤ) (t : Early.Token) :
    Early.meets_criteria c now t = Scanner.runChain (Early.checks c now) t := by
  unfold Early.checks
  by_cases h1 : now - t.timestamp > c.max_token_age_seconds
  · rw [Scanner.runChain_cons_some _ _ _ (Scanner.Reason.tooOld (now - t.timestamp)) (by simp [h1])]
    simp [Early.meets_criteria, h1]
  · rw [Scanner.runChain_cons_none _ _ _ (by simp [h1])]
    by_cases h2 : t.initial_liquidity < c.min_pumpfun_liquidity
    · rw [Scanner.runChain_cons_some _ _ _ (Scanner.Reason.lowLiquidity t.initial_liquidity) (by simp [h2])]
      simp [Early.meets_criteria, h1, h2]
    · rw [Scanner.runChain_cons_none _ _ _ (by simp [h2])]
      by_cases h3 : t.initial_liquidity > c.max_pumpfun_liquidity
      · rw [Scanner.runChain_cons_some _ _ _ (Scanner.Reason.highLiquidity t.initial_liquidity) (by simp [h3])]
        simp [Early.meets_criteria, h1, h2, h3]
      · rw [Scanner.runChain_cons_none _ _ _ (by simp [h3])]
        by_cases h4 : (c.require_socials && !Scanner.optTruthy t.twitter &&
            !Scanner.optTruthy t.telegram) = true
        · rw [Scanner.runChain_cons_some _ _ _ Scanner.Reason.noSocials (by simp [h4])]
          simp [Early.meets_criteria, h1, h2, h3, h4]
        · rw [Scanner.runChain_cons_none _ _ _ (by simp [h4])]
          by_cases h5 : t.symbol.length > c.max_symbol_length
          · rw [Scanner.runChain_cons_some _ _ _ (Scanner.Reason.symbolTooLong t.symbol.length) (by simp [h5])]
            simp [Early.meets_criteria, h1, h2, h3, h4, h5]
          · rw [Scanner.runChain_cons_none _ _ _ (by simp [h5])]
            by_cases h6 : t.symbol.length < c.min_symbol_length
            · rw [Scanner.runChain_cons_some _ _ _ (Scanner.Reason.symbolTooShort t.symbol.length) (by simp [h6])]
              simp [Early.meets_criteria, h1, h2, h3, h4, h5, h6]
            · rw [Scanner.runChain_cons_none _ _ _ (by simp [h6])]
              cases hf : c.blacklist_keywords.find? (fun k =>
                  Scanner.containsSub k (Scanner.toLowerStr t.name) ||
                  Scanner.containsSub k (Scanner.toLowerStr t.symbol)) with
              | some k =>
                rw [Scanner.runChain_cons_some _ _ _ (Scanner.Reason.blacklisted k) (by simp [hf])]
                simp [Early.meets_criteria, h1, h2, h3, h4, h5, h6, hf]
              | none =>
                rw [Scanner.runChain_cons_none _ _ _ (by simp [hf])]
                by_cases h8 : (c.banned_patterns.any (fun p =>
                    p.search (Scanner.toLowerStr t.name) ||
                    p.search (Scanner.toLowerStr t.symbol))) = true
                · rw [Scanner.runChain_cons_some _ _ _ Scanner.Reason.bannedMatch (by simp [h8])]
                  simp [Early.meets_criteria, h1, h2, h3, h4, h5, h6, hf, h8]
                · rw [Scanner.runChain_cons_none _ _ _ (by simp [h8])]
                  by_cases h9 : (c.require_theme_match &&
                      !(c.winning_themes.any (fun th => th.2.any (fun k =>
                        Scanner.containsSub k (Scanner.toLowerStr t.name) ||
                        Scanner.containsSub k (Scanner.toLowerStr t.symbol))))) = true
                  · rw [Scanner.runChain_cons_some _ _ _ Scanner.Reason.noThemeMatch (by simp [h9])]
                    simp [Early.meets_criteria, h1, h2, h3, h4, h5, h6, hf, h8, h9]
                  · rw [Scanner.runChain_cons_none _ _ _ (by simp [h9])]
                    by_cases h10 : Scanner.digitCount t.symbol > 1
                    · rw [Scanner.runChain_cons_some _ _ _ Scanner.Reason.tooManyNumbers (by simp [h10])]
                      simp [Early.meets_criteria, h1, h2, h3, h4, h5, h6, hf, h8, h9, h10]
                    · rw [Scanner.runChain_cons_none _ _ _ (by simp [h10])]
                      simp [Early.meets_criteria, Scanner.runChain,
                        h1, h2, h3, h4, h5, h6, hf, h8, h9, h10]

theorem Multi.meets_eq_chainM (c : Multi.Criteria) (now : ℤ) (t : Multi.Token) :
    Multi.meets_criteria c now t = Scanner.runChain (Multi.checks c now) t := by
  unfold Multi.checks
  by_cases h1 : now - t.timestamp > c.max_token_age_seconds
  · rw [Scanner.runChain_cons_some _ _ _ (Scanner.Reason.tooOld (now - t.timestamp)) (by simp [h1])]
    simp [Multi.meets_criteria, h1]
  · rw [Scanner.runChain_cons_none _ _ _ (by simp [h1])]
    by_cases h2 : Multi.adjLiquidity t < c.min_liquidity
    · rw [Scanner.runChain_cons_some _ _ _ (Scanner.Reason.lowLiquidity (Multi.adjLiquidity t)) (by simp [h2])]
      simp [Multi.meets_criteria, h1, h2]
    · rw [Scanner.runChain_cons_none _ _ _ (by simp [h2])]
      by_cases h3 : Multi.adjLiquidity t > c.max_liquidity * 1000
      · rw [Scanner.runChain_cons_some _ _ _ (Scanner.Reason.highLiquidity (Multi.adjLiquidity t)) (by simp [h3])]
        simp [Multi.meets_criteria, h1, h2, h3]
      · rw [Scanner.runChain_cons_none _ _ _ (by simp [h3])]
        by_cases h5 : t.symbol.length > c.max_symbol_length
        · rw [Scanner.runChain_cons_some _ _ _ (Scanner.Reason.symbolTooLong t.symbol.length) (by simp [h5])]
          simp [Multi.meets_criteria, h1, h2, h3, h5]
        · rw [Scanner.runChain_cons_none _ _ _ (by simp [h5])]
          by_cases h6 : t.symbol.length < c.min_symbol_length
          · rw [Scanner.runChain_cons_some _ _ _ (Scanner.Reason.symbolTooShort t.symbol.length) (by simp [h6])]
            simp [Multi.meets_criteria, h1, h2, h3, h5, h6]
          · rw [Scanner.runChain_cons_none _ _ _ (by simp [h6])]
            cases hf : c.blacklist_keywords.find? (fun k =>
                Scanner.containsSub k (Scanner.toLowerStr t.name) ||
                Scanner.containsSub k (Scanner.toLowerStr t.symbol)) with
            | some k =>
              rw [Scanner.runChain_cons_some _ _ _ (Scanner.Reason.blacklisted k) (by simp [hf])]
              simp [Multi.meets_criteria, h1, h2, h3, h5, h6, hf]
            | none =>
              rw [Scanner.runChain_cons_none _ _ _ (by simp [hf])]
              by_cases h8 : (c.banned_patterns.any (fun p =>
                  p.search (Scanner.toLowerStr t.name) ||
                  p.search (Scanner.toLowerStr t.symbol))) = true
              · rw [Scanner.runChain_cons_some _ _ _ Scanner.Reason.bannedMatch (by simp [h8])]
                simp [Multi.meets_criteria, h1, h2, h3, h5, h6, hf, h8]
              · rw [Scanner.runChain_cons_none _ _ _ (by simp [h8])]
                by_cases h9 : (c.require_theme_match &&
                    !(c.winning_themes.any (fun th => th.2.any (fun k =>
                      Scanner.containsSub k (Scanner.toLowerStr t.name) ||
                      Scanner.containsSub k (Scanner.toLowerStr t.symbol))))) = true
                · rw [Scanner.runChain_cons_some _ _ _ Scanner.Reason.noThemeMatch (by simp [h9])]
                  simp [Multi.meets_criteria, h1, h2, h3, h5, h6, hf, h8, h9]
                · rw [Scanner.runChain_cons_none _ _ _ (by simp [h9])]
                  by_cases h10 : Scanner.digitCount t.symbol > 1
                  · rw [Scanner.runChain_cons_some _ _ _ Scanner.Reason.tooManyNumbers (by simp [h10])]
                    simp [Multi.meets_criteria, h1, h2, h3, h5, h6, hf, h8, h9, h10]
                  · rw [Scanner.runChain_cons_none _ _ _ (by simp [h10])]
                    simp [Multi.meets_criteria, Scanner.runChain,
                      h1, h2, h3, h5, h6, hf, h8, h9, h10]

theorem Early.liq_range_iffE (c : Early.Criteria) (now : ℤ) (t : Early.Token)
    (h : now - t.timestamp ≤ c.max_token_age_seconds) :
    Scanner.isLiqReason (Early.meets_criteria c now t).2 = false ↔
      c.min_pumpfun_liquidity ≤ t.initial_liquidity ∧
      t.initial_liquidity ≤ c.max_pumpfun_liquidity := by
  unfold Early.meets_criteria
  rw [if_neg (by omega : ¬ now - t.timestamp > c.max_token_age_seconds)]
  by_cases h2 : t.initial_liquidity < c.min_pumpfun_liquidity
  · rw [if_pos h2]
    simp only [Scanner.isLiqReason]
    constructor
    · intro hc; exact absurd hc (by simp)
    · intro hc; omega
  · rw [if_neg h2]
    by_cases h3 : t.initial_liquidity > c.max_pumpfun_liquidity
    · rw [if_pos h3]
      simp only [Scanner.isLiqReason]
      constructor
      · intro hc; exact absurd hc (by simp)
      · intro hc; omega
    · rw [if_neg h3]
      constructor
      · intro _; exact ⟨by omega, by omega⟩
      · intro _
        repeat' split
        all_goals rfl

theorem Multi.liq_range_iffM (c : Multi.Criteria) (now : ℤ) (t : Multi.Token)
    (h : now - t.timestamp ≤ c.max_token_age_seconds) :
    Scanner.isLiqReason (Multi.meets_criteria c now t).2 = false ↔
      c.min_liquidity ≤ Multi.adjLiquidity t ∧
      Multi.adjLiquidity t ≤ c.max_liquidity * 1000 := by
  unfold Multi.meets_criteria
  rw [if_neg (by omega : ¬ now - t.timestamp > c.max_token_age_seconds)]
  by_cases h2 : Multi.adjLiquidity t < c.min_liquidity
  · rw [if_pos h2]
    simp only [Scanner.isLiqReason]
    constructor
    · intro hc; exact absurd hc (by simp)
    · intro hc; omega
  · rw [if_neg h2]
    by_cases h3 : Multi.adjLiquidity t > c.max_liquidity * 1000
    · rw [if_pos h3]
      simp only [Scanner.isLiqReason]
      constructor
      · intro hc; exact absurd hc (by simp)
      · intro hc; omega
    · rw [if_neg h3]
      constructor
      · intro _; exact ⟨by omega, by omega⟩
      · intro _
        repeat' split
        all_goals rfl

/-! The claim theorems. -/

/-- Claim C1: for every address, across any number of repeated
observations delivered to the orchestrator callback `on_new_token`
with no dedup-store eviction in between, the notifier is invoked at
most once for that address; an event whose address is already in the
seen set is skipped before filtering; and the address is added to the
seen set exactly when an alert for it is dispatched.  Stated for both
variants: dispatch counts over `runEvents` are at most one, an
already-seen address exits immediately with `skippedSeen` and an
unchanged store, and each step grows the store by the event's address
exactly when the outcome is `dispatched`. -/
theorem c1_at_most_once_dispatch :
    (∀ (c : Early.Criteria) (evts : List (ℤ × Early.Token)) (a : String),
        List.count a (Early.runEvents c [] evts).2 ≤ 1)
    ∧ (∀ (c : Early.Criteria) (now : ℤ) (seen : List String) (t : Early.Token),
        t.address ∈ seen →
          Early.on_new_token c now seen t = ⟨.skippedSeen, seen⟩)
    ∧ (∀ (c : Early.Criteria) (now : ℤ) (seen : List String) (t : Early.Token),
        (Early.on_new_token c now seen t).seen =
          (if (Early.on_new_token c now seen t).outcome.sendsAlert
           then t.address :: seen else seen))
    ∧ (∀ (c : Multi.Criteria) (d : Multi.DeveloperReputationTracker)
        (evts : List (ℤ × Multi.Token)) (a : String),
        List.count a (Multi.runEvents c d [] evts).2 ≤ 1)
    ∧ (∀ (c : Multi.Criteria) (d : Multi.DeveloperReputationTracker)
        (now : ℤ) (seen : List String) (t : Multi.Token),
        t.address ∈ seen →
          Multi.on_new_token c d now seen t = ⟨t, .skippedSeen, seen⟩)
    ∧ (∀ (c : Multi.Criteria) (d : Multi.DeveloperReputationTracker)
        (now : ℤ) (seen : List String) (t : Multi.Token),
        (Multi.on_new_token c d now seen t).seen =
          (if (Multi.on_new_token c d now seen t).outcome.sendsAlert
           then t.address :: seen else seen)) :=
  ⟨fun c evts a => Early.runEvents_count_le_oneE c evts [] a,
   Early.step_skippedSeenE,
   Early.step_seen_specE,
   fun c d evts a => Multi.runEvents_count_le_oneM c d evts [] a,
   Multi.step_skippedSeenM,
   Multi.step_seen_specM⟩

/-- Witness for C1 at concrete inputs: the same event delivered twice
dispatches at most once, and an already-seen address is skipped in both
variants. -/
theorem c1_witness :
    List.count "a1" (Early.runEvents Early.criteria []
      [(150, tokA1), (160, tokA1)]).2 ≤ 1
    ∧ Early.on_new_token Early.criteria 150 ["a1"] tokA1 =
        ⟨.skippedSeen, ["a1"]⟩
    ∧ Multi.on_new_token Multi.criteria histTracker 100 ["LiqTok"] c5Tok =
        ⟨c5Tok, .skippedSeen, ["LiqTok"]⟩ :=
  ⟨c1_at_most_once_dispatch.1 Early.criteria [(150, tokA1), (160, tokA1)] "a1",
   c1_at_most_once_dispatch.2.1 Early.criteria 150 ["a1"] tokA1 (by decide),
   c1_at_most_once_dispatch.2.2.2.2.1 Multi.criteria histTracker 100
     ["LiqTok"] c5Tok (by decide)⟩

/-- Claim C2, counterexample: the claim says blacklist membership takes
precedence over the elite allow-list, but `check_developer` tests the
elite set first (source line 267 before line 270), so a wallet in both
sets is classified `elite`, not `bad`. -/
theorem c2_counterexample :
    "w" ∈ bothTracker.blacklisted_devs ∧ "w" ∈ bothTracker.elite_devs ∧
    Multi.check_developer bothTracker "w" ≠ .bad := by decide

/-- Claim C2 (amended): the classification precedence of
`check_developer` is allow-list over blacklist over history-derived
over unknown: an elite wallet is `elite` (even when also blacklisted),
a non-elite blacklisted wallet is `bad`, and a wallet in neither set is
classified from its recorded success rate — `good` above 1/2, `bad`
below 1/5, otherwise `unknown`; a wallet without a history record is
`unknown`. -/
theorem c2_reputation_precedence :
    ∀ (d : Multi.DeveloperReputationTracker) (w : String),
      (w ∈ d.elite_devs → Multi.check_developer d w = .elite)
      ∧ (w ∉ d.elite_devs → w ∈ d.blacklisted_devs →
          Multi.check_developer d w = .bad)
      ∧ (w ∉ d.elite_devs → w ∉ d.blacklisted_devs →
          ∀ h : Multi.DevHistory, Multi.lookupHistory d w = some h →
            (h.success_rate > Scanner.halfRate →
              Multi.check_developer d w = .good)
            ∧ (¬ h.success_rate > Scanner.halfRate →
                h.success_rate < Scanner.fifthRate →
                Multi.check_developer d w = .bad)
            ∧ (¬ h.success_rate > Scanner.halfRate →
                ¬ h.success_rate < Scanner.fifthRate →
                Multi.check_developer d w = .unknown))
      ∧ (w ∉ d.elite_devs → w ∉ d.blacklisted_devs →
          Multi.lookupHistory d w = none →
          Multi.check_developer d w = .unknown) := by
  intro d w
  refine ⟨fun h1 => by simp [Multi.check_developer, h1],
          fun h1 h2 => by simp [Multi.check_developer, h1, h2],
          fun h1 h2 h hh =>
            ⟨fun hr => by simp [Multi.check_developer, h1, h2, hh, hr],
             fun hr1 hr2 => by
               simp [Multi.check_developer, h1, h2, hh, hr1, hr2],
             fun hr1 hr2 => by
               simp [Multi.check_developer, h1, h2, hh, hr1, hr2]⟩,
          fun h1 h2 hn => by simp [Multi.check_developer, h1, h2, hn]⟩

/-- Witness for C2 at concrete trackers: the elite branch and the
history-derived good branch (rate 3/4 > 1/2). -/
theorem c2_witness :
    Multi.check_developer bothTracker "w" = .elite
    ∧ Multi.check_developer histTracker "w" = .good :=
  ⟨(c2_reputation_precedence bothTracker "w").1 (by decide),
   ((c2_reputation_precedence histTracker "w").2.2.1 (by decide) (by decide)
     ⟨3, 4, ⟨3, 4, by decide, by decide⟩⟩ (by decide)).1 (by decide)⟩

/-- Claim C3: the theme component of `calculate_priority` is claimed to
count only the first matching theme/keyword (source comment at line 380
caps it at 35 points), but the inner `break` leaves only the keyword
loop, not the theme loop, so every matching theme contributes: an event
with name "Doge" and symbol "CAT" collects 35 (dogs) + 25 (cats) = 60
theme points, while a single-theme event collects 35, and the full
priority of such an event includes the stacked 60. -/
theorem c3_theme_stacking :
    Scanner.themeScore Scanner.winningThemes
      (Scanner.toLowerStr "Doge") (Scanner.toLowerStr "CAT") = 60
    ∧ Scanner.themeScore Scanner.winningThemes
        (Scanner.toLowerStr "Doge") (Scanner.toLowerStr "XYZQ") = 35
    ∧ Early.calculate_priority Early.criteria 150 tokDogeCat = 195 := by
  decide

/-- Claim C4: from base delay 5 with cap 60, four consecutive failures
sleep 5, 10, 20, 40 and every later failure sleeps 60; after a
successful subscribe the next failure sleeps the base 5 again (and the
delay then continues doubling from 10). -/
theorem c4_backoff_progression :
    (∀ n : Nat, Scanner.backoffRun 5 60 5
        (List.replicate (n + 4) .failure) =
        [5, 10, 20, 40] ++ List.replicate n 60)
    ∧ (∀ (dl : Nat) (es : List Scanner.ConnEvent),
        Scanner.backoffRun 5 60 dl (.success :: .failure :: es) =
          5 :: Scanner.backoffRun 5 60 10 es) := by
  constructor
  · intro n
    have hrep : List.replicate (n + 4) Scanner.ConnEvent.failure =
        .failure :: .failure :: .failure :: .failure ::
        List.replicate n .failure := rfl
    have hrun : Scanner.backoffRun 5 60 5
        (.failure :: .failure :: .failure :: .failure ::
          List.replicate n Scanner.ConnEvent.failure) =
        5 :: 10 :: 20 :: 40 ::
          Scanner.backoffRun 5 60 60 (List.replicate n .failure) := rfl
    rw [hrep, hrun, Scanner.backoff_capped]
    rfl
  · intro dl es
    rfl

/-- Claim C5, counterexample: in the multi-source variant an event with
liquidity 500, strictly above `max_liquidity` = 200, passes the whole
eligibility filter instead of failing with a liquidity reason, because
the upper comparison is against `max_liquidity * 1000`. -/
theorem c5_counterexample :
    c5Tok.initial_liquidity > Multi.criteria.max_liquidity
    ∧ Multi.meets_criteria Multi.criteria 100 c5Tok =
        (true, .passed) := by decide

/-- Claim C5 (amended): for events passing the age check, the
single-source filter's liquidity check passes exactly when the raw
liquidity lies in the closed interval
`[min_pumpfun_liquidity, max_pumpfun_liquidity]`; the multi-source
filter first multiplies pump.fun liquidity by 100 (`adjLiquidity`, the
source's SOL-to-USD estimate) and passes exactly when the adjusted
value lies in `[min_liquidity, max_liquidity * 1000]`.  Outside those
intervals the filter fails with a liquidity reason. -/
theorem c5_liquidity_range :
    (∀ (c : Early.Criteria) (now : ℤ) (t : Early.Token),
        now - t.timestamp ≤ c.max_token_age_seconds →
        (Scanner.isLiqReason (Early.meets_criteria c now t).2 = false ↔
          c.min_pumpfun_liquidity ≤ t.initial_liquidity ∧
          t.initial_liquidity ≤ c.max_pumpfun_liquidity))
    ∧ (∀ (c : Multi.Criteria) (now : ℤ) (t : Multi.Token),
        now - t.timestamp ≤ c.max_token_age_seconds →
        (Scanner.isLiqReason (Multi.meets_criteria c now t).2 = false ↔
          c.min_liquidity ≤ Multi.adjLiquidity t ∧
          Multi.adjLiquidity t ≤ c.max_liquidity * 1000)) :=
  ⟨Early.liq_range_iffE, Multi.liq_range_iffM⟩

/-- Witness for C5 at concrete inputs with the age hypothesis
discharged. -/
theorem c5_witness :
    (Scanner.isLiqReason (Early.meets_criteria Early.criteria 150 tokA1).2
        = false ↔
      Early.criteria.min_pumpfun_liquidity ≤ tokA1.initial_liquidity ∧
      tokA1.initial_liquidity ≤ Early.criteria.max_pumpfun_liquidity)
    ∧ (Scanner.isLiqReason
        (Multi.meets_criteria Multi.criteria 100 c5Tok).2 = false ↔
      Multi.criteria.min_liquidity ≤ Multi.adjLiquidity c5Tok ∧
      Multi.adjLiquidity c5Tok ≤ Multi.criteria.max_liquidity * 1000) :=
  ⟨c5_liquidity_range.1 Early.criteria 150 tokA1 (by decide),
   c5_liquidity_range.2 Multi.criteria 100 c5Tok (by decide)⟩

/-- Claim C6: both variants of `meets_criteria` equal the ordered
short-circuit chain over their source-order check lists (`checks`),
returning the first failing check's reason; and under the hypothetical
criteria with `require_theme_match` and theme set
`{dogs: ["doge", "bonk"]}`, the "RandomCoin"/"RC" event fails with the
no-theme-match reason while the "Dogecoin2"/"DOGE" event passes the
whole chain (in particular the digit-count check and the theme check). -/
theorem c6_chain_and_theme_gating :
    (∀ (c : Early.Criteria) (now : ℤ) (t : Early.Token),
        Early.meets_criteria c now t =
          Scanner.runChain (Early.checks c now) t)
    ∧ (∀ (c : Multi.Criteria) (now : ℤ) (t : Multi.Token),
        Multi.meets_criteria c now t =
          Scanner.runChain (Multi.checks c now) t)
    ∧ Early.meets_criteria themeCritE 0 randomTokE = (false, .noThemeMatch)
    ∧ Early.meets_criteria themeCritE 0 dogeTokE = (true, .passed)
    ∧ Multi.meets_criteria themeCritM 0 randomTokM = (false, .noThemeMatch)
    ∧ Multi.meets_criteria themeCritM 0 dogeTokM = (true, .passed) :=
  ⟨Early.meets_eq_chainE, Multi.meets_eq_chainM,
   by decide, by decide, by decide, by decide⟩

/-- Claim C8: the cleanup sweep either clears the whole dedup store or
leaves it untouched (never a partial eviction); with a ceiling of 3,
after four distinct addresses are marked seen a sweep empties the
store, the first address is treated as new again, and a fresh event
with that address is dispatched again. -/
theorem c8_eviction_wholesale :
    (∀ (ceiling : Nat) (s : List String),
        Scanner.cleanupSweep ceiling s = [] ∨
        Scanner.cleanupSweep ceiling s = s)
    ∧ fourSeen.length = 4
    ∧ Scanner.cleanupSweep 3 fourSeen = []
    ∧ "a1" ∉ Scanner.cleanupSweep 3 fourSeen
    ∧ Early.on_new_token Early.criteria 150 (Scanner.cleanupSweep 3 fourSeen)
        tokA1 = ⟨.dispatched 185, ["a1"]⟩ := by
  refine ⟨fun ceiling s => ?_, by decide, by decide, by decide, by decide⟩
  unfold Scanner.cleanupSweep
  split
  · exact Or.inl rfl
  · exact Or.inr rfl

/-- Claim C7, counterexample: `meets_criteria` reads `datetime.now()`,
so two evaluations with identical event fields, identical criteria and
identical creator classification, made at different times, can return
different (pass, reason) pairs — the same event passes at time 50 and
fails the age check at time 700. -/
theorem c7_counterexample :
    Early.meets_criteria Early.criteria 50 c7Tok ≠
      Early.meets_criteria Early.criteria 700 c7Tok := by decide

/-- Claim C7 (amended): `meets_criteria` is a pure deterministic
function of the event fields, the criteria, the creator classification
and the evaluation time: two evaluations at the same time with
field-wise identical events and equal criteria yield the same
(pass, reason) pair, in both variants. -/
theorem c7_filter_deterministic :
    (∀ (c : Early.Criteria) (now : ℤ) (t1 t2 : Early.Token),
        t1.address = t2.address → t1.name = t2.name →
        t1.symbol = t2.symbol → t1.source = t2.source →
        t1.initial_liquidity = t2.initial_liquidity →
        t1.creator = t2.creator → t1.timestamp = t2.timestamp →
        t1.bonding_curve = t2.bonding_curve → t1.telegram = t2.telegram →
        t1.twitter = t2.twitter → t1.website = t2.website →
        t1.image_uri = t2.image_uri → t1.market_cap = t2.market_cap →
        t1.volume = t2.volume → t1.holder_count = t2.holder_count →
        t1.is_renounced = t2.is_renounced → t1.is_frozen = t2.is_frozen →
        t1.lp_burned = t2.lp_burned →
        Early.meets_criteria c now t1 = Early.meets_criteria c now t2)
    ∧ (∀ (c : Multi.Criteria) (now : ℤ) (t1 t2 : Multi.Token),
        t1.address = t2.address → t1.name = t2.name →
        t1.symbol = t2.symbol → t1.source = t2.source →
        t1.initial_liquidity = t2.initial_liquidity →
        t1.creator = t2.creator → t1.timestamp = t2.timestamp →
        t1.bonding_curve = t2.bonding_curve → t1.telegram = t2.telegram →
        t1.twitter = t2.twitter → t1.website = t2.website →
        t1.image_uri = t2.image_uri → t1.market_cap = t2.market_cap →
        t1.volume = t2.volume → t1.holder_count = t2.holder_count →
        t1.pool_id = t2.pool_id →
        t1.creator_reputation = t2.creator_reputation →
        Multi.meets_criteria c now t1 = Multi.meets_criteria c now t2) := by
  constructor
  · intro c now t1 t2 h1 h2 h3 h4 h5 h6 h7 h8 h9 h10 h11 h12 h13 h14 h15
      h16 h17 h18
    have e : t1 = t2 := Early.Token.ext h1 h2 h3 h4 h5 h6 h7 h8 h9 h10 h11
      h12 h13 h14 h15 h16 h17 h18
    rw [e]
  · intro c now t1 t2 h1 h2 h3 h4 h5 h6 h7 h8 h9 h10 h11 h12 h13 h14 h15
      h16 h17
    have e : t1 = t2 := Multi.Token.ext h1 h2 h3 h4 h5 h6 h7 h8 h9 h10 h11
      h12 h13 h14 h15 h16 h17
    rw [e]

/-- Witness for C7: the determinism theorem applied at concrete equal
inputs. -/
theorem c7_witness :
    Early.meets_criteria Early.criteria 50 c7Tok =
      Early.meets_criteria Early.criteria 50 c7Tok
    ∧ Multi.meets_criteria Multi.criteria 100 c5Tok =
        Multi.meets_criteria Multi.criteria 100 c5Tok :=
  ⟨c7_filter_deterministic.1 Early.criteria 50 c7Tok c7Tok rfl rfl rfl rfl
     rfl rfl rfl rfl rfl rfl rfl rfl rfl rfl rfl rfl rfl rfl,
   c7_filter_deterministic.2 Multi.criteria 100 c5Tok c5Tok rfl rfl rfl rfl
     rfl rfl rfl rfl rfl rfl rfl rfl rfl rfl rfl rfl rfl⟩

/-- Claim C9: for every event and every criteria configuration, the
priority score is clamped to the configured maximum — 200 in the
single-source variant and 250 in the multi-source variant — and is a
non-negative integer. -/
theorem c9_priority_bounds :
    ∀ (ce : Early.Criteria) (cm : Multi.Criteria) (now : ℤ)
      (te : Early.Token) (tm : Multi.Token),
      Early.calculate_priority ce now te ≤ 200
      ∧ 0 ≤ Early.calculate_priority ce now te
      ∧ Multi.calculate_priority cm now tm ≤ 250
      ∧ 0 ≤ Multi.calculate_priority cm now tm := by
  intro ce cm now te tm
  exact ⟨Nat.min_le_right _ _, Nat.zero_le _,
         Nat.min_le_right _ _, Nat.zero_le _⟩

/-- Claim C10: in the multi-source orchestrator, an event whose creator
identity is the empty string bypasses reputation handling entirely:
its `creator_reputation` is left as delivered by the adapter, it is
never rejected by the block-bad-devs gate, the whole step is
independent of the reputation tracker state (so `check_developer` is
never consulted, even when the empty string is blacklisted), and when
the annotation is unset it receives no elite/good priority bonus. -/
theorem c10_empty_creator_bypasses_reputation :
    ∀ (c : Multi.Criteria) (d d2 : Multi.DeveloperReputationTracker)
      (now : ℤ) (seen : List String) (t : Multi.Token),
      t.creator = "" →
      ((Multi.on_new_token c d now seen t).token.creator_reputation =
          t.creator_reputation
       ∧ (Multi.on_new_token c d now seen t).outcome ≠ .blockedBadDev
       ∧ Multi.on_new_token c d now seen t =
           Multi.on_new_token c d2 now seen t
       ∧ (t.creator_reputation = none →
           Multi.devBonus c
             (Multi.on_new_token c d now seen t).token.creator_reputation
             = 0)) := by
  intro c d d2 now seen t h
  have hann : ∀ d3 : Multi.DeveloperReputationTracker,
      Multi.annotate d3 t = t := by
    intro d3
    simp [Multi.annotate, h]
  have hstep : ∀ d3 : Multi.DeveloperReputationTracker,
      Multi.on_new_token c d3 now seen t =
        (if t.address ∈ seen then ⟨t, .skippedSeen, seen⟩
         else if c.allowed_sources ≠ [] ∧ t.source ∉ c.allowed_sources then
           ⟨t, .skippedSource, seen⟩
         else
           match Multi.meets_criteria c now t with
           | (false, r) => ⟨t, .failedCriteria r, seen⟩
           | (true, _) =>
             if Multi.calculate_priority c now t < c.min_priority_score then
               ⟨t, .lowPriority (Multi.calculate_priority c now t), seen⟩
             else
               ⟨t, .dispatched (Multi.calculate_priority c now t),
                t.address :: seen⟩) := by
    intro d3
    unfold Multi.on_new_token
    simp only [hann, h, ne_eq, not_true_eq_false, false_and, if_false]
  refine ⟨?_, ?_, ?_, ?_⟩
  · rw [hstep d]
    repeat' split
    all_goals rfl
  · rw [hstep d]
    repeat' split
    all_goals exact fun hcon => nomatch hcon
  · rw [hstep d, hstep d2]
  · intro hnone
    rw [hstep d]
    repeat' split
    all_goals simp [Multi.devBonus, hnone]

/-- Witness for C10 at a concrete empty-creator event against a tracker
whose blacklist contains the empty string. -/
theorem c10_witness :
    (Multi.on_new_token Multi.criteria c10Tracker 100 [] c10Tok).token.creator_reputation =
      c10Tok.creator_reputation
    ∧ (Multi.on_new_token Multi.criteria c10Tracker 100 [] c10Tok).outcome ≠
        .blockedBadDev
    ∧ Multi.devBonus Multi.criteria
        (Multi.on_new_token Multi.criteria c10Tracker 100 [] c10Tok).token.creator_reputation
        = 0 :=
  ⟨(c10_empty_creator_bypasses_reputation Multi.criteria c10Tracker
      c10Tracker 100 [] c10Tok rfl).1,
   (c10_empty_creator_bypasses_reputation Multi.criteria c10Tracker
      c10Tracker 100 [] c10Tok rfl).2.1,
   (c10_empty_creator_bypasses_reputation Multi.criteria c10Tracker
      c10Tracker 100 [] c10Tok rfl).2.2.2 rfl⟩

/-- Witness for C8: the concrete sweep instance extracted from the
eviction theorem. -/
theorem c8_witness : Scanner.cleanupSweep 3 fourSeen = [] :=
  c8_eviction_wholesale.2.2.1
